import Mathlib

/-!
Shallow embedding of `src/literate_notebook.py` (repository
violapaul/LiterateNotebook) and verification of the spec claims about it.

The Python module converts between a Jupyter notebook (a JSON structure with a
list of cells) and a flat "roundtrip" Python file in which each cell is a chunk
delimited by a marker comment line.  We model:

  * lines as `String` (a line normally carries its trailing newline character,
    except possibly the last line of a cell source, mirroring the Jupyter
    convention the Python code relies on);
  * a Jupyter cell as a record.  In the Python code a cell is a dict; markdown
    cells have no `execution_count`/`outputs` keys, which we encode as
    `execution_count = none` and `outputs = []`.  `metadata` is an opaque
    key-value map, only ever constructed empty by this code, modelled as an
    association list; `outputs` entries are opaque objects never constructed by
    this code, modelled as `Unit`;
  * the notebook produced by decoding as a record of the decoded metadata
    (if a metadata chunk was seen) and the cell list;
  * Python exceptions as an error type `PyError` threaded through `Except`.
    `NameError` (raised when the code references an undefined global such as
    the misspelled `loggging` or the never-imported `copy`) carries the
    undefined name;
  * `json.loads` / the JSON payload type are external to the repository
    (Python stdlib), so the decoder is parameterized by an arbitrary
    `json_loads : String → Except PyError μ`.
-/

namespace LiterateNotebook

abbrev Line := String

/-- Errors raised by the Python code, one constructor per raise site (plus
`nameError` for Python's own `NameError` on undefined globals and
`invalidMetadataPayload` for failures of the external `json.loads`). -/
inductive PyError where
  /-- Python `NameError: name '<n>' is not defined`. -/
  | nameError (n : String)
  /-- `raise Exception("Attempt to uncomment a line which is not commented.")`
      in `uncomment_line`; the spec calls this `MalformedComment`. -/
  | malformedComment
  /-- `raise Exception("Could not fine a chunk marker.")` in
      `read_to_first_chunk`; the spec calls this `NoChunkMarkerFound`. -/
  | noChunkMarkerFound
  /-- `raise Exception(f"Can't create notebook cell of type = {chunk_type}.")`
      in `create_jupyter_cell`; the spec calls this `UnknownChunkKind`. -/
  | unknownChunkKind (ctype : String)
  /-- Failure of the external `json.loads` on the metadata payload. -/
  | invalidMetadataPayload
deriving DecidableEq, Repr

/-- A Jupyter cell.  Python represents this as a dict; absent keys
(`execution_count`/`outputs` on markdown cells) are modelled as `none` / `[]`. -/
structure JupyterCell where
  cell_type : String
  execution_count : Option Nat
  metadata : List (String × String)
  outputs : List Unit
  source : List Line
deriving DecidableEq, Repr

/-- A notebook: the non-`cells` part (opaque JSON produced by `json.loads`,
hence a type parameter `μ`; `none` when no metadata chunk was decoded) plus the
cell list. -/
structure Notebook (μ : Type) where
  meta : Option μ
  cells : List JupyterCell
deriving DecidableEq, Repr

/-! ### Character and string helpers (Python semantics) -/

/-- Python's `\s` on the ASCII range: space, tab, newline, carriage return,
vertical tab, form feed.  (Python's `re` also matches some Unicode spaces,
which no claim exercises.) -/
def is_python_space (c : Char) : Bool :=
  c = ' ' || c = '\t' || c = '\n' || c = '\r' || c.toNat = 11 || c.toNat = 12

/-- `re.match("^\s*$", s)` succeeds exactly when every character of `s` is
whitespace (the `$` may sit before a final newline, which is itself `\s`). -/
def is_whitespace_only (s : String) : Bool := s.data.all is_python_space

/-- Character-list core of Python `s.startswith(p)`. -/
def starts_chars : List Char → List Char → Bool
  | [], _ => true
  | _ :: _, [] => false
  | p :: ps, c :: cs => (p = c) && starts_chars ps cs

/-- Python `s.startswith(p)`. -/
def py_startswith (p s : String) : Bool := starts_chars p.data s.data

/-- Python slice `s[n:]`. -/
def py_drop (n : Nat) (s : String) : String := ⟨s.data.drop n⟩

/-- Python slice `s[:n]`. -/
def py_take (n : Nat) (s : String) : String := ⟨s.data.take n⟩

/-- Python `s.rstrip()`: remove all trailing whitespace characters. -/
def py_rstrip (s : String) : String := ⟨(s.data.reverse.dropWhile is_python_space).reverse⟩

/-! ### Tag classifier (`extract_cell_tag`, source lines 56-69) -/

/-- `VALID_CELL_TAGS = {'notebook', 'module', 'test'}` (membership only). -/
def VALID_CELL_TAGS : List String := ["notebook", "module", "test"]

/-- `extract_cell_tag` applies `re.match(r"#\s*([a-zA-Z]+).*", line)`: the line
must start with `#`, then optional whitespace, then at least one ASCII letter;
the captured letter run, casefolded, is the tag if it is in
`VALID_CELL_TAGS`, else the default `'module'`.  (The trailing `.*` constrains
nothing since `re.match` needs only a prefix match; `re.IGNORECASE` is
irrelevant to `[a-zA-Z]`; `casefold` is `toLower` on ASCII.) -/
def extract_cell_tag (line : String) : String :=
  match line.data with
  | '#' :: rest =>
    let word := (rest.dropWhile is_python_space).takeWhile Char.isAlpha
    if word.isEmpty then "module"
    else
      let tag : String := ⟨word.map Char.toLower⟩
      if tag ∈ VALID_CELL_TAGS then tag else "module"
  | _ => "module"

/-! ### Marker codec (source lines 85-101) -/

/-- `make_chunk_marker(num, cell_type, line_length=80)`:
`f"#### Cell #{num} Type: {cell_type} {'#' * line_length}"[:line_length]`.
The Python default `line_length=80` is passed explicitly by our callers. -/
def make_chunk_marker (num : Nat) (cell_type : String) (line_length : Nat) : String :=
  py_take line_length
    ("#### Cell #" ++ Nat.repr num ++ " Type: " ++ cell_type ++ " "
      ++ ⟨List.replicate line_length '#'⟩)

/-- Python `\w` on the ASCII range. -/
def is_word_char (c : Char) : Bool := c.isAlphanum || c = '_'

/-- Value of a run of decimal digit characters (what `int(m.group(1))`
computes on the digits captured by `(\d+)`). -/
def digits_to_nat (ds : List Char) : Nat :=
  ds.foldl (fun n c => 10 * n + (c.toNat - '0'.toNat)) 0

/-- `$` in `re.match` may sit at the end of the string or just before one
final newline; stripping that newline first gives the same semantics. -/
def chop_final_newline (cs : List Char) : List Char :=
  if cs.getLast? = some '\n' then cs.dropLast else cs

/-- Match a literal head, returning the remainder of the input on success. -/
def strip_literal : List Char → List Char → Option (List Char)
  | [], cs => some cs
  | _ :: _, [] => none
  | p :: ps, c :: cs => if c = p then strip_literal ps cs else none

/-- `is_chunk_marker(line)`: `re.match(r'#### Cell #(\d+) Type: (\w+) #+$', line)`,
returning `(int(group 1), group 2)` on a match.  The pattern is anchored at
the start; after the literal head come one or more digits, the literal
`" Type: "`, one or more word characters, a space, and one or more `#`
characters running to the end of the line. -/
def is_chunk_marker (line : String) : Option (Nat × String) :=
  let cs := chop_final_newline line.data
  match strip_literal "#### Cell #".data cs with
  | none => none
  | some rest =>
    let ds := rest.takeWhile Char.isDigit
    if ds.isEmpty then none else
    match strip_literal " Type: ".data (rest.drop ds.length) with
    | none => none
    | some rest2 =>
      let ws := rest2.takeWhile is_word_char
      if ws.isEmpty then none else
      match rest2.drop ws.length with
      | ' ' :: hashes =>
        if !hashes.isEmpty && hashes.all (fun c => c = '#') then
          some (digits_to_nat ds, ⟨ws⟩)
        else none
      | _ => none

/-- `make_chunk_separator(num, cell_type)`: the marker surrounded by blank
lines for readability: `["\n", marker + "\n", ""]`. -/
def make_chunk_separator (num : Nat) (cell_type : String) : List String :=
  ["\n", make_chunk_marker num cell_type 80 ++ "\n", ""]

/-! ### Line-list builders (`add_line` / `add_lines`, source lines 104-113) -/

/-- `add_line(results, line)`: append `line + "\n"`. -/
def add_line (results : List Line) (line : String) : List Line :=
  results ++ [line ++ "\n"]

/-- `add_lines(results, list_of_lines)`: when nonempty, append all lines but
the last verbatim and the last with a `"\n"` appended. -/
def add_lines (results : List Line) (list_of_lines : List String) : List Line :=
  if list_of_lines.length > 0 then
    results ++ list_of_lines.dropLast ++ [list_of_lines.getLastD "" ++ "\n"]
  else results

/-- What `add_lines` appends (helper for reasoning; not a source function). -/
def encode_lines (list_of_lines : List String) : List String :=
  if list_of_lines.length > 0 then
    list_of_lines.dropLast ++ [list_of_lines.getLastD "" ++ "\n"]
  else []

/-! ### Comment codec (source lines 145-160) -/

def COMMENT_TEXT : String := "#: "

/-- `comment_line(line)`: `COMMENT_TEXT + line`. -/
def comment_line (line : String) : String := COMMENT_TEXT ++ line

/-- `uncomment_line(line)`: whitespace-only lines pass through; lines starting
with `COMMENT_TEXT` lose exactly that head; anything else raises (the spec's
`MalformedComment`). -/
def uncomment_line (line : String) : Except PyError String :=
  if is_whitespace_only line then .ok line
  else if py_startswith COMMENT_TEXT line then .ok (py_drop COMMENT_TEXT.length line)
  else .error .malformedComment

/-! ### Module projector (`notebook_to_module`, source lines 118-136) -/

/-- One iteration of the `notebook_to_module` loop over `(num, cell)` pairs:
the first cell, when markdown, becomes a triple-quoted module docstring;
code cells whose (nonempty) source classifies as `module` are emitted,
preceded by a chunk separator when `use_chunks`; everything else is skipped. -/
def module_step (use_chunks : Bool) (res : List Line) (nc : Nat × JupyterCell) : List Line :=
  let num := nc.1
  let cell := nc.2
  if num = 0 ∧ cell.cell_type = "markdown" then
    let res := add_line res ""
    let res := add_line res "\"\"\""
    let res := add_lines res cell.source
    add_line res "\"\"\""
  else if cell.cell_type = "code" then
    if cell.source.length > 0 ∧ extract_cell_tag (cell.source.headD "") = "module" then
      let res := if use_chunks then add_lines res (make_chunk_separator num "module") else res
      add_lines res cell.source
    else res
  else res

/-- `notebook_to_module(notebook_json, use_chunks=True)`: fold `module_step`
over the cells paired with their indices (`zip(it.count(), cells)`). -/
def notebook_to_module {μ : Type} (nb : Notebook μ) (use_chunks : Bool) : List Line :=
  nb.cells.enum.foldl (module_step use_chunks) []

/-! ### Roundtrip encoder (`notebook_to_roundtrip`, source lines 167-216) -/

/-- `add_markdown_chunk(res, num, cell)`: chunk separator, then every source
line comment-encoded. -/
def add_markdown_chunk (res : List Line) (num : Nat) (cell : JupyterCell) : List Line :=
  add_lines (add_lines res (make_chunk_separator num "markdown")) (cell.source.map comment_line)

/-- `add_code_chunk(res, num, cell)`: chunk separator carrying the cell tag
(empty source defaults to `module`), then the source verbatim. -/
def add_code_chunk (res : List Line) (num : Nat) (cell : JupyterCell) : List Line :=
  let source := cell.source
  let ctag := if source.length = 0 then "module" else extract_cell_tag (source.headD "")
  add_lines (add_lines res (make_chunk_separator num ctag)) source

/-- `notebook_metadata(notebook_json)` (source lines 203-210) immediately
evaluates `copy.copy(notebook_json)`, but the module imports only
`os, json, itertools, re, logging` (source lines 19-23) and never `copy`, so
the call raises `NameError: name 'copy' is not defined` on every input; the
remainder of the function body (deleting `cells`, `json.dumps`) is dead code. -/
def notebook_metadata {μ : Type} (_notebook_json : Notebook μ) : Except PyError (List String) :=
  .error (.nameError "copy")

/-- `add_metadata_chunk(res, num, notebook_json)`: chunk separator, then the
comment-encoded JSON serialization of the metadata.  `notebook_metadata`
raises before any of that is observable (the lines appended to `res` before
the raise are discarded with the exception, which the `Except` bind models). -/
def add_metadata_chunk {μ : Type} (res : List Line) (num : Nat) (nb : Notebook μ) :
    Except PyError (List Line) := do
  let res := add_lines res (make_chunk_separator num "metadata")
  let json_of_metadata ← notebook_metadata nb
  .ok (add_lines res (json_of_metadata.map comment_line))

/-- Body of the `for num, cell in zip(it.count(), cells)` loop of
`notebook_to_roundtrip`: markdown and code cells get a chunk; any other
`cell_type` reaches `loggging.warning(...)`, where `loggging` (a misspelling
of `logging`) is an undefined name, so Python raises `NameError` and the
encode aborts. -/
def encode_cell (res : List Line) (num : Nat) (cell : JupyterCell) : Except PyError (List Line) :=
  if cell.cell_type = "markdown" then .ok (add_markdown_chunk res num cell)
  else if cell.cell_type = "code" then .ok (add_code_chunk res num cell)
  else .error (.nameError "loggging")

/-- The encode loop: threads `res` and the running index; returns the lines
so far and the number of cells processed. -/
def encode_cells : List Line → Nat → List JupyterCell → Except PyError (List Line × Nat)
  | res, num, [] => .ok (res, num)
  | res, num, cell :: rest => do
      let res ← encode_cell res num cell
      encode_cells res (num + 1) rest

/-- `notebook_to_roundtrip(notebook_json)`.  With no cells the loop never
binds `num`, so `num+1` raises `NameError` (Python `UnboundLocalError`, a
`NameError` subclass).  Otherwise, after the per-cell chunks, the metadata
chunk is appended at index `num+1` and the `finish` chunk at `num+2`, where
`num` is the last cell index (`n - 1` for `n` cells). -/
def notebook_to_roundtrip {μ : Type} (nb : Notebook μ) : Except PyError (List Line) :=
  match nb.cells with
  | [] => .error (.nameError "num")
  | cells => do
      let (res, n) ← encode_cells [] 0 cells
      let res ← add_metadata_chunk res (n - 1 + 1) nb
      .ok (add_lines res (make_chunk_separator (n - 1 + 2) "finish"))

/-! ### Roundtrip decoder (`notebook_from_roundtrip`, source lines 225-300) -/

/-- `read_to_first_chunk(file_lines)`: advance to the first marker line and
return `(num, ctype)` plus the unconsumed rest of the iterator; raise
(`NoChunkMarkerFound`) when the input has no marker at all. -/
def read_to_first_chunk : List Line → Except PyError ((Nat × String) × List Line)
  | [] => .error .noChunkMarkerFound
  | line :: rest =>
    match is_chunk_marker line with
    | some marker => .ok (marker, rest)
    | none => read_to_first_chunk rest

/-- The accumulation loop of the `notebook_chunks` generator: lines are
collected into the current chunk's buffer until the next marker, at which
point the finished chunk is yielded.  When the input ends, the chunk in
progress is never yielded (the generator just returns), so the chunk opened
by the last marker — the `finish` chunk on encoder output — is dropped. -/
def scan_chunks : Nat × String → List Line → List Line → List (Nat × String × List Line)
  | _, _, [] => []
  | cur, buf, line :: rest =>
    match is_chunk_marker line with
    | some marker => (cur.1, cur.2, buf) :: scan_chunks marker [] rest
    | none => scan_chunks cur (buf ++ [line]) rest

/-- `notebook_chunks(file_lines)`: the full chunk list of the input. -/
def notebook_chunks (file_lines : List Line) :
    Except PyError (List (Nat × String × List Line)) := do
  let (first, rest) ← read_to_first_chunk file_lines
  .ok (scan_chunks first [] rest)

/-- `empty_code_cell()`: `dict(cell_type='code', execution_count=1,
metadata={}, outputs=[])`. -/
def empty_code_cell : JupyterCell :=
  { cell_type := "code", execution_count := some 1, metadata := [], outputs := [], source := [] }

/-- `empty_markdown_cell()`: `dict(cell_type='markdown', metadata={})` — no
`execution_count` or `outputs` keys. -/
def empty_markdown_cell : JupyterCell :=
  { cell_type := "markdown", execution_count := none, metadata := [], outputs := [], source := [] }

/-- The list comprehension `[uncomment_line(l) for l in lines]`: evaluated
left to right, the first exception propagating. -/
def uncomment_all : List String → Except PyError (List String)
  | [] => .ok []
  | l :: ls => do
      let a ← uncomment_line l
      let as ← uncomment_all ls
      .ok (a :: as)

/-- The trimming tail of `create_jupyter_cell` (source lines 289-293):
`lines = lines[1:-1]` removes the readability blank lines, then, when the
remainder is nonempty, `lines[-1] = lines[-1].rstrip()` replaces the last
line by itself with ALL trailing whitespace removed. -/
def trim_cell_lines (lines : List String) : List String :=
  let lines := (lines.drop 1).dropLast
  if lines.length > 0 then lines.dropLast ++ [py_rstrip (lines.getLastD "")] else lines

/-- `create_jupyter_cell(chunk_type, lines)`: code-kind chunks become a fresh
code cell with the buffer as-is; `markdown` chunks become a fresh markdown
cell after uncommenting every buffer line; any other kind raises.  The common
trimming tail `trim_cell_lines` is applied to the (possibly uncommented)
buffer before it becomes the cell's `source`; the per-branch order of
operations is exactly the Python function's. -/
def create_jupyter_cell (chunk_type : String) (lines : List String) :
    Except PyError JupyterCell :=
  if chunk_type ∈ (["module", "notebook", "test"] : List String) then
    .ok { empty_code_cell with source := trim_cell_lines lines }
  else if chunk_type = "markdown" then do
    let ls ← uncomment_all lines
    .ok { empty_markdown_cell with source := trim_cell_lines ls }
  else
    .error (.unknownChunkKind chunk_type)

/-- `extract_metadata(lines)`: uncomment every line, join with spaces, parse
with the external `json.loads` (passed in as `json_loads`). -/
def extract_metadata {μ : Type} (json_loads : String → Except PyError μ)
    (lines : List String) : Except PyError μ := do
  let ls ← uncomment_all lines
  json_loads (" ".intercalate ls)

/-- Body of the `for chunk in notebook_chunks(...)` loop of
`notebook_from_roundtrip`: recognized cell kinds append a cell; `metadata`
replaces the notebook dict with the parsed payload; every other kind —
`finish`, but also any unknown kind — falls through both tests and is
silently ignored. -/
def process_chunk {μ : Type} (json_loads : String → Except PyError μ)
    (st : Option μ × List JupyterCell) (chunk : Nat × String × List Line) :
    Except PyError (Option μ × List JupyterCell) :=
  let ctype := chunk.2.1
  let lines := chunk.2.2
  if ctype ∈ (["module", "notebook", "test", "markdown"] : List String) then do
    let cell ← create_jupyter_cell ctype lines
    .ok (st.1, st.2 ++ [cell])
  else if ctype = "metadata" then do
    let m ← extract_metadata json_loads lines
    .ok (some m, st.2)
  else .ok st

/-- Run `process_chunk` over the chunk list, threading the
`(notebook, cells)` state. -/
def process_chunks {μ : Type} (json_loads : String → Except PyError μ) :
    Option μ × List JupyterCell → List (Nat × String × List Line) →
    Except PyError (Option μ × List JupyterCell)
  | st, [] => .ok st
  | st, c :: cs => do
      let st ← process_chunk json_loads st c
      process_chunks json_loads st cs

/-- `notebook_from_roundtrip(file_lines)`: scan the chunks, dispatch each,
finish with `notebook['cells'] = cells`. -/
def notebook_from_roundtrip {μ : Type} (json_loads : String → Except PyError μ)
    (file_lines : List Line) : Except PyError (Notebook μ) := do
  let chunks ← notebook_chunks file_lines
  let st ← process_chunks json_loads (none, []) chunks
  .ok { meta := st.1, cells := st.2 }

/-- Stand-in instantiation for the external `json.loads` used by concrete
evaluations whose input streams contain no metadata chunk (so the parser is
never consulted). -/
def json_loads_stub : String → Except PyError Unit := fun _ => .ok ()

/-! ### Claim-side definitions (worded from the spec, for comparison) -/

/-- Worded from claim C7: the normalization the claim asserts for the last
content line — strip one trailing line terminator only, all other characters
unchanged. -/
def strip_newline_only (s : String) : String :=
  if s.data.getLast? = some '\n' then ⟨s.data.dropLast⟩ else s

/-- The trimming the decoder actually performs on a block-producing chunk
buffer, stated in claim C7's (amended) shape: drop the first and the last
buffer line; if the remainder is nonempty, replace its last line by that line
with all trailing whitespace removed. -/
def claim_trim (buf : List String) : List String :=
  match (buf.drop 1).dropLast with
  | [] => []
  | ls => ls.dropLast ++ [py_rstrip (ls.getLastD "")]

/-- Worded from claim C8: the tag of a code block, "defaulting to module when
the block's first line carries no recognized tag" — an empty block has no
first line, so it defaults to `module` (as the spec's data model prescribes
for an unspecified tag). -/
def claim_tag_C8 (cell : JupyterCell) : String :=
  if cell.source.isEmpty then "module" else extract_cell_tag (cell.source.headD "")

/-- The leading prose block "rendered as the document's description text":
a triple-quoted docstring block (the rendering the projector uses). -/
def claim_description_block (src : List String) : List Line :=
  ["\n", "\"\"\"\n"] ++ encode_lines src ++ ["\"\"\"\n"]

/-- The marker line (with its readability blank lines) preceding an emitted
module block when chunk markers are requested. -/
def claim_marker_lines (num : Nat) : List Line :=
  ["\n", make_chunk_marker num "module" 80 ++ "\n", "\n"]

/-- Worded from claim C8, per cell: a leading prose block becomes the
description text; every `CodeBlock` tagged `module` (default tag included) is
emitted verbatim, preceded by its marker lines when requested; notebook/test
blocks and non-leading prose contribute nothing. -/
def claim_render (use_chunks : Bool) (nc : Nat × JupyterCell) : List Line :=
  if nc.1 = 0 ∧ nc.2.cell_type = "markdown" then claim_description_block nc.2.source
  else if nc.2.cell_type = "code" ∧ claim_tag_C8 nc.2 = "module" then
    (if use_chunks then claim_marker_lines nc.1 else []) ++ encode_lines nc.2.source
  else []

/-- Claim C8's Module Projector: the concatenation of the per-cell renderings. -/
def module_projection_claim {μ : Type} (nb : Notebook μ) (use_chunks : Bool) : List Line :=
  (nb.cells.enum.map (claim_render use_chunks)).flatten

/-- Claim C8 amended, per cell: as `claim_render`, except a code block is
emitted only when it has at least one source line (so an empty code cell is
omitted entirely, marker included). -/
def amended_render (use_chunks : Bool) (nc : Nat × JupyterCell) : List Line :=
  if nc.1 = 0 ∧ nc.2.cell_type = "markdown" then claim_description_block nc.2.source
  else if nc.2.cell_type = "code" ∧
      (nc.2.source.length > 0 ∧ extract_cell_tag (nc.2.source.headD "") = "module") then
    (if use_chunks then claim_marker_lines nc.1 else []) ++ encode_lines nc.2.source
  else []

/-- The amended Module Projector of claim C8. -/
def module_projection_amended {μ : Type} (nb : Notebook μ) (use_chunks : Bool) : List Line :=
  (nb.cells.enum.map (amended_render use_chunks)).flatten

/-- Worded from claim C10: a freshly synthesized cell — a code cell carries
`execution_count = 1`, empty metadata and no outputs; a markdown cell carries
empty metadata (and no `execution_count`/`outputs` keys at all). -/
def fresh_decode_cell (c : JupyterCell) : Bool :=
  (c.cell_type == "code" && c.execution_count == some 1
      && c.metadata.isEmpty && c.outputs.isEmpty)
    || (c.cell_type == "markdown" && c.execution_count == none
      && c.metadata.isEmpty && c.outputs.isEmpty)

/-! ### Helper lemmas -/

instance {ε α : Type} [DecidableEq ε] [DecidableEq α] : DecidableEq (Except ε α)
  | .error e, .error f =>
    match decEq e f with
    | isTrue h => isTrue (by rw [h])
    | isFalse h => isFalse (fun hh => h (Except.error.inj hh))
  | .error _, .ok _ => isFalse (fun hh => Except.noConfusion hh)
  | .ok _, .error _ => isFalse (fun hh => Except.noConfusion hh)
  | .ok a, .ok b =>
    match decEq a b with
    | isTrue h => isTrue (by rw [h])
    | isFalse h => isFalse (fun hh => h (Except.ok.inj hh))

theorem add_lines_eq (res : List Line) (ls : List String) :
    add_lines res ls = res ++ encode_lines ls := by
  unfold add_lines encode_lines
  split_ifs <;> simp

theorem except_bind_ok {ε α β : Type} (a : α) (f : α → Except ε β) :
    (Except.ok a >>= f : Except ε β) = f a := rfl

theorem except_bind_error {ε α β : Type} (e : ε) (f : α → Except ε β) :
    ((Except.error e : Except ε α) >>= f) = Except.error e := rfl

/-- `comment_line` output starts with `'#'`, hence is never whitespace-only,
and starts with the comment head by construction, so `uncomment_line` strips
exactly what `comment_line` added — for every line, with no restriction. -/
theorem uncomment_comment_id (L : String) : uncomment_line (comment_line L) = .ok L := by
  cases L with
  | mk d => rfl

/-! ### Claim C9 -/

/-- C9: for every line `L` without restriction — whitespace-only lines and
lines already starting with `"#: "` included — `uncomment_line (comment_line L)
= L`: `comment_line`'s output always starts with the comment head and is never
whitespace-only, so decoding strips exactly the head encoding added. -/
theorem lit_C9_uncomment_comment (L : String) :
    uncomment_line (comment_line L) = .ok L :=
  uncomment_comment_id L

/-! ### Claim C5 -/

/-- Counterexample to C5: the empty line is whitespace-only, yet
`comment_line` (the claim's `encodeLine`) is not the identity on it — it
prepends the comment head unconditionally. -/
theorem lit_C5_counterexample :
    is_whitespace_only "" = true ∧ comment_line "" ≠ "" := by
  decide

/-- C5 amended: for every line `L` that does not start with the comment head,
`uncomment_line (comment_line L) = L`; and on whitespace-only `L` the decoder
`uncomment_line` (though not the encoder `comment_line`) is the identity. -/
theorem lit_C5_amended (L : String) :
    (py_startswith COMMENT_TEXT L = false → uncomment_line (comment_line L) = .ok L) ∧
    (is_whitespace_only L = true → uncomment_line L = .ok L) := by
  constructor
  · intro _
    exact uncomment_comment_id L
  · intro h
    simp [uncomment_line, h]

theorem lit_C5_witness :
    (py_startswith COMMENT_TEXT "x = 1" = false ∧
      uncomment_line (comment_line "x = 1") = .ok "x = 1") ∧
    (is_whitespace_only " \n" = true ∧ uncomment_line " \n" = .ok " \n") :=
  ⟨⟨by decide, (lit_C5_amended "x = 1").1 (by decide)⟩,
   ⟨by decide, (lit_C5_amended " \n").2 (by decide)⟩⟩

/-! ### Claim C1 -/

/-- A one-markdown-cell, one-code-cell notebook (the smallest interesting
round-trip input). -/
def notebook_C1 : Notebook Unit :=
  { meta := none,
    cells :=
      [{ cell_type := "markdown", execution_count := none, metadata := [], outputs := [],
         source := ["Title"] },
       { cell_type := "code", execution_count := some 1, metadata := [], outputs := [],
         source := ["x = 1"] }] }

/-- C1 (code bug): the round trip can never even start, because
`notebook_to_roundtrip` unconditionally reaches `notebook_metadata`, whose
first statement `copy.copy(notebook_json)` references the never-imported
`copy` module and raises `NameError: name 'copy' is not defined`.  Encoding
this two-block document therefore returns no line stream at all, so
`decode(encode(d))` cannot reproduce `d` for any `d`. -/
theorem lit_C1_encode_raises :
    notebook_to_roundtrip notebook_C1 = .error (.nameError "copy") := by
  decide

/-! ### Claim C3 -/

/-- A notebook whose second cell has the unsupported `cell_type` `"raw"`. -/
def notebook_C3 : Notebook Unit :=
  { meta := none,
    cells :=
      [{ cell_type := "code", execution_count := some 1, metadata := [], outputs := [],
         source := ["x = 1"] },
       { cell_type := "raw", execution_count := none, metadata := [], outputs := [],
         source := ["raw text"] },
       { cell_type := "code", execution_count := some 1, metadata := [], outputs := [],
         source := ["y = 2"] }] }

/-- C3 (code bug): an unsupported cell type does NOT produce a non-fatal
logged diagnostic and a skip — the diagnostic branch calls
`loggging.warning(...)`, and `loggging` (a misspelling of the imported
`logging`) is an undefined name, so Python raises `NameError` there and the
whole encode aborts; the remaining cells (here `y = 2`) are never encoded. -/
theorem lit_C3_encode_aborts :
    notebook_to_roundtrip notebook_C3 = .error (.nameError "loggging") := by
  decide

/-! ### Claim C6 -/

/-- Two module code cells. -/
def cells_C6 : List JupyterCell :=
  [{ cell_type := "code", execution_count := some 1, metadata := [], outputs := [],
     source := ["a = 1"] },
   { cell_type := "code", execution_count := some 1, metadata := [], outputs := [],
     source := ["b = 2"] }]

/-- C6 (code bug): `notebook_to_roundtrip` never produces a chunk stream —
it raises `NameError` for `copy` inside `add_metadata_chunk` on every input —
so no stream with indices `0..N+1` exists.  The per-cell part of the loop,
run on its own, does emit marker lines carrying indices `0..N-1` in order
(here `[0, 1]`), but the metadata chunk at `N` and the finish chunk at `N+1`
are never reached and the whole result is discarded by the exception. -/
theorem lit_C6_no_stream :
    notebook_to_roundtrip ({ meta := none, cells := cells_C6 } : Notebook Unit) =
      .error (.nameError "copy") ∧
    encode_cells [] 0 cells_C6 =
      .ok (["\n", make_chunk_marker 0 "module" 80 ++ "\n", "\n", "a = 1\n",
            "\n", make_chunk_marker 1 "module" 80 ++ "\n", "\n", "b = 2\n"], 2) ∧
    (["\n", make_chunk_marker 0 "module" 80 ++ "\n", "\n", "a = 1\n",
      "\n", make_chunk_marker 1 "module" 80 ++ "\n", "\n", "b = 2\n"].filterMap
        (fun l => (is_chunk_marker l).map Prod.fst)) = [0, 1] := by
  refine ⟨by decide, by decide, by decide⟩

/-! ### Claim C2 -/

/-- A decode input containing one syntactically valid chunk whose kind word
`bogus` is outside the fixed kind set, closed by a `finish` marker. -/
def input_C2 : List Line :=
  ["\n", make_chunk_marker 0 "bogus" 80 ++ "\n", "\n", "x = 1\n", "\n",
   make_chunk_marker 1 "finish" 80 ++ "\n", "\n"]

/-- Counterexample to C2: the `bogus` marker is syntactically valid
(`is_chunk_marker` recognizes it), yet `notebook_from_roundtrip` does not
fail with `UnknownChunkKind` — it silently skips the chunk and succeeds,
returning a document.  (The `UnknownChunkKind` raise in `create_jupyter_cell`
is unreachable: the dispatch in `notebook_from_roundtrip` only calls it for
the four recognized cell kinds and ignores everything else.) -/
theorem lit_C2_counterexample :
    is_chunk_marker (make_chunk_marker 0 "bogus" 80 ++ "\n") = some (0, "bogus") ∧
    notebook_chunks input_C2 = .ok [(0, "bogus", ["\n", "x = 1\n", "\n"])] ∧
    notebook_from_roundtrip json_loads_stub input_C2 =
      .ok { meta := none, cells := [] } := by
  refine ⟨by decide, by decide, by decide⟩

/-- C2 amended: a chunk whose kind is outside
`{module, notebook, test, markdown, metadata}` is silently ignored by the
decoder — it contributes neither a cell nor metadata and raises nothing, just
like the `finish` chunk — so decoding continues past it. -/
theorem lit_C2_unknown_kind_skipped {μ : Type} (json_loads : String → Except PyError μ)
    (st : Option μ × List JupyterCell) (num : Nat) (ctype : String) (lines : List Line)
    (h : ctype ∉ (["module", "notebook", "test", "markdown", "metadata"] : List String)) :
    process_chunk json_loads st (num, ctype, lines) = .ok st := by
  simp only [List.mem_cons, List.not_mem_nil, or_false, not_or] at h
  obtain ⟨h1, h2, h3, h4, h5⟩ := h
  simp [process_chunk, h1, h2, h3, h4, h5]

theorem lit_C2_witness :
    ("bogus" ∉ (["module", "notebook", "test", "markdown", "metadata"] : List String)) ∧
    process_chunk json_loads_stub ((none, []) : Option Unit × List JupyterCell)
      (0, "bogus", ["\n", "x = 1\n", "\n"]) = .ok (none, []) :=
  ⟨by decide,
   lit_C2_unknown_kind_skipped json_loads_stub (none, []) 0 "bogus" ["\n", "x = 1\n", "\n"]
     (by decide)⟩

/-! ### Claim C7 -/

/-- Counterexample to C7: on the buffer whose content line is `"x = 1  \n"`
(trailing spaces before the newline), the decoder yields `"x = 1"`: it used
`str.rstrip()`, which removes ALL trailing whitespace.  The claim's rule —
strip a trailing line terminator only, leaving all other characters of the
last line unchanged — would yield `"x = 1  "` instead. -/
theorem lit_C7_counterexample :
    create_jupyter_cell "module" ["\n", "x = 1  \n", "\n"] =
      .ok { cell_type := "code", execution_count := some 1, metadata := [], outputs := [],
            source := ["x = 1"] } ∧
    strip_newline_only "x = 1  \n" = "x = 1  " ∧
    ("x = 1" : String) ≠ "x = 1  " := by
  refine ⟨by decide, by decide, by decide⟩

/-- The inline trimming of `create_jupyter_cell` coincides with claim C7's
(amended) formulation `claim_trim`. -/
theorem trim_cell_lines_eq (bs : List String) : trim_cell_lines bs = claim_trim bs := by
  unfold trim_cell_lines claim_trim
  cases h : (bs.drop 1).dropLast with
  | nil => simp
  | cons a tl => simp

/-- C7 amended: for every block-producing chunk the decoder removes exactly
the first and the last line of the (for markdown: uncommented) buffer, and
when the remainder is nonempty it replaces its last line by that line with
ALL trailing whitespace stripped (`str.rstrip()`), not just a line
terminator; earlier lines are unchanged. -/
theorem lit_C7_trim (buf : List String) :
    (∀ ctype, ctype ∈ (["module", "notebook", "test"] : List String) →
      create_jupyter_cell ctype buf = .ok { empty_code_cell with source := claim_trim buf }) ∧
    (∀ ls, uncomment_all buf = .ok ls →
      create_jupyter_cell "markdown" buf =
        .ok { empty_markdown_cell with source := claim_trim ls }) := by
  constructor
  · intro ctype hmem
    unfold create_jupyter_cell
    rw [if_pos hmem, trim_cell_lines_eq]
  · intro ls hls
    unfold create_jupyter_cell
    rw [if_neg (by decide), if_pos rfl, hls]
    exact congrArg (fun s => Except.ok { empty_markdown_cell with source := s })
      (trim_cell_lines_eq ls)

theorem lit_C7_witness :
    create_jupyter_cell "test" ["\n", "assert x  \n", "\n"] =
      .ok { empty_code_cell with source := claim_trim ["\n", "assert x  \n", "\n"] } ∧
    uncomment_all ["\n", "#: hello  \n", "\n"] = .ok ["\n", "hello  \n", "\n"] ∧
    create_jupyter_cell "markdown" ["\n", "#: hello  \n", "\n"] =
      .ok { empty_markdown_cell with source := claim_trim ["\n", "hello  \n", "\n"] } :=
  ⟨(lit_C7_trim ["\n", "assert x  \n", "\n"]).1 "test" (by decide),
   by decide,
   (lit_C7_trim ["\n", "#: hello  \n", "\n"]).2 ["\n", "hello  \n", "\n"] (by decide)⟩

/-! ### Claim C4 -/

theorem comment_text_data : COMMENT_TEXT.data = ['#', ':', ' '] := rfl

/-- A line that is neither whitespace-only nor comment-headed makes
`uncomment_line` raise. -/
theorem uncomment_line_bad {l : String} (hws : is_whitespace_only l = false)
    (hpre : py_startswith COMMENT_TEXT l = false) :
    uncomment_line l = .error .malformedComment := by
  unfold uncomment_line
  rw [if_neg (by simp [hws]), if_neg (by simp [hpre])]

/-- `uncomment_line` has a single raise site, so `MalformedComment` is its only
error. -/
theorem uncomment_line_error_eq {l : String} {e : PyError}
    (h : uncomment_line l = .error e) : e = .malformedComment := by
  unfold uncomment_line at h
  by_cases h1 : is_whitespace_only l = true
  · rw [if_pos h1] at h
    exact Except.noConfusion h
  · rw [if_neg h1] at h
    by_cases h2 : py_startswith COMMENT_TEXT l = true
    · rw [if_pos h2] at h
      exact Except.noConfusion h
    · rw [if_neg h2] at h
      exact (Except.error.inj h).symm

/-- Uncommenting a buffer containing a bad line fails with `MalformedComment`
(whichever bad line is hit first, the error is the same). -/
theorem uncomment_all_bad : ∀ {buf : List String} {l : String}, l ∈ buf →
    is_whitespace_only l = false → py_startswith COMMENT_TEXT l = false →
    uncomment_all buf = .error .malformedComment := by
  intro buf
  induction buf with
  | nil =>
    intro l hm
    cases hm
  | cons b bs ih =>
    intro l hm hws hpre
    cases hm with
    | head =>
      simp only [uncomment_all]
      rw [uncomment_line_bad hws hpre, except_bind_error]
    | tail _ hm2 =>
      simp only [uncomment_all]
      cases hb : uncomment_line b with
      | error e =>
        rw [except_bind_error, uncomment_line_error_eq hb]
      | ok a =>
        rw [except_bind_ok, ih hm2 hws hpre, except_bind_error]

theorem create_markdown_bad {buf : List String} {l : String} (hm : l ∈ buf)
    (hws : is_whitespace_only l = false) (hpre : py_startswith COMMENT_TEXT l = false) :
    create_jupyter_cell "markdown" buf = .error .malformedComment := by
  unfold create_jupyter_cell
  rw [if_neg (by decide), if_pos rfl, uncomment_all_bad hm hws hpre, except_bind_error]

theorem extract_metadata_bad {μ : Type} (json_loads : String → Except PyError μ)
    {buf : List String} {l : String} (hm : l ∈ buf)
    (hws : is_whitespace_only l = false) (hpre : py_startswith COMMENT_TEXT l = false) :
    extract_metadata json_loads buf = .error .malformedComment := by
  unfold extract_metadata
  rw [uncomment_all_bad hm hws hpre, except_bind_error]

/-- Dispatching a markdown or metadata chunk whose buffer contains a bad line
fails with `MalformedComment`, whatever the accumulated state. -/
theorem process_chunk_bad {μ : Type} (json_loads : String → Except PyError μ)
    (st : Option μ × List JupyterCell) {num : Nat} {ctype : String} {buf : List Line}
    {l : String} (hkind : ctype = "markdown" ∨ ctype = "metadata") (hm : l ∈ buf)
    (hws : is_whitespace_only l = false) (hpre : py_startswith COMMENT_TEXT l = false) :
    process_chunk json_loads st (num, ctype, buf) = .error .malformedComment := by
  cases hkind with
  | inl h =>
    subst h
    simp only [process_chunk]
    rw [if_pos (by decide), create_markdown_bad hm hws hpre, except_bind_error]
  | inr h =>
    subst h
    simp only [process_chunk]
    rw [if_neg (by decide), if_pos trivial, extract_metadata_bad json_loads hm hws hpre,
      except_bind_error]

/-- A chunk whose dispatch always errors makes the whole decode loop error. -/
theorem process_chunks_err {μ : Type} (json_loads : String → Except PyError μ)
    {c : Nat × String × List Line}
    (hc : ∀ st : Option μ × List JupyterCell,
      process_chunk json_loads st c = .error .malformedComment) :
    ∀ (cs : List (Nat × String × List Line)), c ∈ cs →
      ∀ st0 : Option μ × List JupyterCell,
        ∃ e, process_chunks json_loads st0 cs = .error e := by
  intro cs
  induction cs with
  | nil =>
    intro hm
    cases hm
  | cons d ds ih =>
    intro hm st0
    cases hm with
    | head =>
      refine ⟨.malformedComment, ?_⟩
      simp only [process_chunks]
      rw [hc st0, except_bind_error]
    | tail _ hm2 =>
      cases hd : process_chunk json_loads st0 d with
      | error e =>
        refine ⟨e, ?_⟩
        simp only [process_chunks]
        rw [hd, except_bind_error]
      | ok st1 =>
        obtain ⟨e, he⟩ := ih hm2 st1
        refine ⟨e, ?_⟩
        simp only [process_chunks]
        rw [hd, except_bind_ok]
        exact he

/-- A string with the comment head starts with `'#'`, so it is not
whitespace-only. -/
theorem startswith_not_ws {s : String} (h : py_startswith COMMENT_TEXT s = true) :
    is_whitespace_only s = false := by
  cases s with
  | mk d =>
    cases d with
    | nil => simp [py_startswith, comment_text_data, starts_chars] at h
    | cons a as =>
      have h2 : '#' = a := by
        simp only [py_startswith, comment_text_data, starts_chars, Bool.and_eq_true,
          decide_eq_true_eq] at h
        exact h.1
      rw [← h2]
      rfl

/-- A successful `starts_chars` exhibits the input as head-plus-remainder. -/
theorem starts_chars_shape : ∀ {p d : List Char}, starts_chars p d = true →
    d = p ++ d.drop p.length := by
  intro p
  induction p with
  | nil =>
    intro d _
    simp
  | cons c cs ih =>
    intro d h
    cases d with
    | nil => simp [starts_chars] at h
    | cons a as =>
      simp only [starts_chars, Bool.and_eq_true, decide_eq_true_eq] at h
      obtain ⟨h1, h2⟩ := h
      subst h1
      simp only [List.cons_append, List.length_cons, List.drop_succ_cons]
      exact congrArg (List.cons c) (ih h2)

/-- What `uncomment_line` removes from a comment-headed line is exactly the
head `"#: "`: re-prepending it restores the original line. -/
theorem startswith_drop {s : String} (h : py_startswith COMMENT_TEXT s = true) :
    COMMENT_TEXT ++ py_drop COMMENT_TEXT.length s = s := by
  cases s with
  | mk d =>
    exact congrArg String.mk (starts_chars_shape h).symm

/-- C4: whenever a markdown or metadata chunk of the input stream contains a
line that is neither whitespace-only nor starting with `"#: "`, dispatching
that chunk raises `MalformedComment` and the whole decode returns an error —
no document; meanwhile a whitespace-only payload line passes through
`uncomment_line` unchanged and a comment-headed line loses exactly the head. -/
theorem lit_C4_malformed {μ : Type} (json_loads : String → Except PyError μ)
    (input : List Line) (chunks : List (Nat × String × List Line))
    (num : Nat) (ctype : String) (buf : List Line) (l : String)
    (hchunks : notebook_chunks input = .ok chunks)
    (hmem : (num, ctype, buf) ∈ chunks)
    (hkind : ctype = "markdown" ∨ ctype = "metadata")
    (hl : l ∈ buf)
    (hws : is_whitespace_only l = false)
    (hpre : py_startswith COMMENT_TEXT l = false) :
    (∀ st : Option μ × List JupyterCell,
      process_chunk json_loads st (num, ctype, buf) = .error .malformedComment) ∧
    (∃ e, notebook_from_roundtrip json_loads input = .error e) ∧
    (∀ s : String, is_whitespace_only s = true → uncomment_line s = .ok s) ∧
    (∀ s : String, py_startswith COMMENT_TEXT s = true →
      uncomment_line s = .ok (py_drop COMMENT_TEXT.length s) ∧
      COMMENT_TEXT ++ py_drop COMMENT_TEXT.length s = s) := by
  refine ⟨fun st => process_chunk_bad json_loads st hkind hl hws hpre, ?_, ?_, ?_⟩
  · obtain ⟨e, he⟩ := process_chunks_err json_loads
      (fun st => process_chunk_bad json_loads st hkind hl hws hpre) chunks hmem (none, [])
    refine ⟨e, ?_⟩
    simp only [notebook_from_roundtrip]
    rw [hchunks, except_bind_ok, he, except_bind_error]
  · intro s hs
    simp [uncomment_line, hs]
  · intro s hs
    have hws2 := startswith_not_ws hs
    constructor
    · simp [uncomment_line, hws2, hs]
    · exact startswith_drop hs

/-- A decode input whose markdown chunk contains the unprefixed non-blank
line `"oops\n"`. -/
def input_C4 : List Line :=
  ["\n", make_chunk_marker 0 "markdown" 80 ++ "\n", "\n", "oops\n", "\n",
   make_chunk_marker 1 "finish" 80 ++ "\n", "\n"]

theorem lit_C4_witness :
    notebook_chunks input_C4 = .ok [(0, "markdown", ["\n", "oops\n", "\n"])] ∧
    (∃ e, notebook_from_roundtrip json_loads_stub input_C4 = .error e) :=
  ⟨by decide,
   (lit_C4_malformed json_loads_stub input_C4 [(0, "markdown", ["\n", "oops\n", "\n"])]
      0 "markdown" ["\n", "oops\n", "\n"] "oops\n" (by decide) (by decide)
      (Or.inl rfl) (by decide) (by decide) (by decide)).2.1⟩

/-! ### Claim C10 -/

/-- Every cell `create_jupyter_cell` returns is freshly synthesized. -/
theorem create_cell_fresh {t : String} {ls : List String} {c : JupyterCell}
    (h : create_jupyter_cell t ls = .ok c) : fresh_decode_cell c = true := by
  unfold create_jupyter_cell at h
  by_cases h1 : t ∈ (["module", "notebook", "test"] : List String)
  · rw [if_pos h1] at h
    have h2 := Except.ok.inj h
    rw [← h2]
    rfl
  · rw [if_neg h1] at h
    by_cases h2 : t = "markdown"
    · rw [if_pos h2] at h
      cases hu : uncomment_all ls with
      | error e =>
        rw [hu, except_bind_error] at h
        exact Except.noConfusion h
      | ok ls2 =>
        rw [hu, except_bind_ok] at h
        have h3 := Except.ok.inj h
        rw [← h3]
        rfl
    · rw [if_neg h2] at h
      exact Except.noConfusion h

/-- One decode-loop step preserves freshness of all accumulated cells. -/
theorem process_chunk_fresh {μ : Type} (json_loads : String → Except PyError μ)
    {st st' : Option μ × List JupyterCell} {c : Nat × String × List Line}
    (h : process_chunk json_loads st c = .ok st')
    (hall : st.2.all fresh_decode_cell = true) :
    st'.2.all fresh_decode_cell = true := by
  simp only [process_chunk] at h
  by_cases h1 : c.2.1 ∈ (["module", "notebook", "test", "markdown"] : List String)
  · rw [if_pos h1] at h
    cases hc : create_jupyter_cell c.2.1 c.2.2 with
    | error e =>
      rw [hc, except_bind_error] at h
      exact Except.noConfusion h
    | ok cell =>
      rw [hc, except_bind_ok] at h
      have h2 := Except.ok.inj h
      rw [← h2]
      simp [List.all_append, hall, create_cell_fresh hc]
  · rw [if_neg h1] at h
    by_cases h2 : c.2.1 = "metadata"
    · rw [if_pos h2] at h
      cases hm : extract_metadata json_loads c.2.2 with
      | error e =>
        rw [hm, except_bind_error] at h
        exact Except.noConfusion h
      | ok m =>
        rw [hm, except_bind_ok] at h
        have h3 := Except.ok.inj h
        rw [← h3]
        exact hall
    · rw [if_neg h2] at h
      have h3 := Except.ok.inj h
      rw [← h3]
      exact hall

/-- The decode loop preserves freshness of all accumulated cells. -/
theorem process_chunks_fresh {μ : Type} (json_loads : String → Except PyError μ) :
    ∀ (cs : List (Nat × String × List Line)) (st st' : Option μ × List JupyterCell),
      process_chunks json_loads st cs = .ok st' →
      st.2.all fresh_decode_cell = true → st'.2.all fresh_decode_cell = true := by
  intro cs
  induction cs with
  | nil =>
    intro st st' h hall
    have h2 := Except.ok.inj h
    rw [← h2]
    exact hall
  | cons c cs ih =>
    intro st st' h hall
    simp only [process_chunks] at h
    cases hc : process_chunk json_loads st c with
    | error e =>
      rw [hc, except_bind_error] at h
      exact Except.noConfusion h
    | ok st1 =>
      rw [hc, except_bind_ok] at h
      exact ih st1 st' h (process_chunk_fresh json_loads hc hall)

/-- C10: every cell of a successfully decoded notebook carries freshly
synthesized attributes — a code cell has `execution_count = 1`, empty
`metadata` and empty `outputs`; a markdown cell has empty `metadata` (and no
`execution_count`/`outputs` keys) — regardless of the input stream: per-cell
metadata is never reconstructed from the flat stream. -/
theorem lit_C10_fresh_cells {μ : Type} (json_loads : String → Except PyError μ)
    (input : List Line) (nb : Notebook μ)
    (h : notebook_from_roundtrip json_loads input = .ok nb) :
    nb.cells.all fresh_decode_cell = true := by
  simp only [notebook_from_roundtrip] at h
  cases hc : notebook_chunks input with
  | error e =>
    rw [hc, except_bind_error] at h
    exact Except.noConfusion h
  | ok chunks =>
    rw [hc, except_bind_ok] at h
    cases hp : process_chunks json_loads (none, []) chunks with
    | error e =>
      rw [hp, except_bind_error] at h
      exact Except.noConfusion h
    | ok st =>
      rw [hp, except_bind_ok] at h
      have h2 := Except.ok.inj h
      rw [← h2]
      exact process_chunks_fresh json_loads chunks (none, []) st hp rfl

/-- A decode input with one module chunk and one markdown chunk. -/
def input_C10 : List Line :=
  ["\n", make_chunk_marker 0 "module" 80 ++ "\n", "\n", "x = 1\n", "\n",
   make_chunk_marker 1 "markdown" 80 ++ "\n", "\n", "#: hi\n", "\n",
   make_chunk_marker 2 "finish" 80 ++ "\n", "\n"]

theorem lit_C10_witness :
    notebook_from_roundtrip json_loads_stub input_C10 =
      .ok { meta := none,
            cells :=
              [{ cell_type := "code", execution_count := some 1, metadata := [], outputs := [],
                 source := ["x = 1"] },
               { cell_type := "markdown", execution_count := none, metadata := [], outputs := [],
                 source := ["hi"] }] } ∧
    ([{ cell_type := "code", execution_count := some 1, metadata := [], outputs := [],
        source := ["x = 1"] },
      { cell_type := "markdown", execution_count := none, metadata := [], outputs := [],
        source := ["hi"] }] : List JupyterCell).all fresh_decode_cell = true :=
  ⟨by decide,
   lit_C10_fresh_cells json_loads_stub input_C10
     { meta := none,
       cells :=
         [{ cell_type := "code", execution_count := some 1, metadata := [], outputs := [],
            source := ["x = 1"] },
          { cell_type := "markdown", execution_count := none, metadata := [], outputs := [],
            source := ["hi"] }] }
     (by decide)⟩

/-! ### Claim C8 -/

theorem empty_line_nl : ("" ++ "\n" : String) = "\n" := rfl

theorem quotes_nl : ("\"\"\"" ++ "\n" : String) = "\"\"\"\n" := rfl

/-- Rendering a chunk separator through `add_lines` yields the marker line
between two blank lines. -/
theorem encode_separator (num : Nat) (ct : String) :
    encode_lines (make_chunk_separator num ct) =
      ["\n", make_chunk_marker num ct 80 ++ "\n", "\n"] := by
  unfold encode_lines make_chunk_separator
  simp [empty_line_nl]

/-- One `notebook_to_module` loop iteration appends exactly the amended
per-cell rendering. -/
theorem module_step_eq (u : Bool) (res : List Line) (nc : Nat × JupyterCell) :
    module_step u res nc = res ++ amended_render u nc := by
  obtain ⟨num, cell⟩ := nc
  by_cases h1 : num = 0 ∧ cell.cell_type = "markdown"
  · simp only [module_step, amended_render]
    rw [if_pos h1, if_pos h1]
    unfold add_line claim_description_block
    rw [add_lines_eq]
    simp [empty_line_nl, quotes_nl]
  · by_cases h2 : cell.cell_type = "code"
    · by_cases h3 : cell.source.length > 0 ∧ extract_cell_tag (cell.source.headD "") = "module"
      · simp only [module_step, amended_render]
        rw [if_neg h1, if_neg h1, if_pos h2, if_pos h3, if_pos (And.intro h2 h3)]
        cases u with
        | false =>
          simp only [if_neg (Bool.false_ne_true)]
          rw [add_lines_eq]
          simp
        | true =>
          simp only [if_pos rfl]
          rw [add_lines_eq, add_lines_eq, encode_separator]
          simp [claim_marker_lines]
      · simp only [module_step, amended_render]
        rw [if_neg h1, if_neg h1, if_pos h2, if_neg h3,
          if_neg (fun hc => h3 (And.right hc))]
        simp
    · simp only [module_step, amended_render]
      rw [if_neg h1, if_neg h1, if_neg h2, if_neg (fun hc => h2 (And.left hc))]
      simp

/-- The loop from any accumulator is the accumulator followed by the
flattened per-cell renderings. -/
theorem foldl_module_step (u : Bool) :
    ∀ (l : List (Nat × JupyterCell)) (res : List Line),
      l.foldl (module_step u) res = res ++ (l.map (amended_render u)).flatten := by
  intro l
  induction l with
  | nil =>
    intro res
    simp
  | cons x xs ih =>
    intro res
    simp only [List.foldl_cons, List.map_cons, List.flatten_cons]
    rw [module_step_eq, ih, List.append_assoc]

/-- C8 amended: `notebook_to_module` is the total projection that renders a
leading markdown block as the module docstring and emits every code cell with
at least one source line whose first line classifies as `module`, preceded by
its marker lines exactly when chunk markers are requested; empty code cells,
`notebook`/`test` cells, non-leading markdown cells and any other cell types
contribute nothing and raise nothing. -/
theorem lit_C8_module_projection {μ : Type} (nb : Notebook μ) (use_chunks : Bool) :
    notebook_to_module nb use_chunks = module_projection_amended nb use_chunks := by
  unfold notebook_to_module module_projection_amended
  rw [foldl_module_step]
  simp

/-- An empty code cell. -/
def cell_C8 : JupyterCell :=
  { cell_type := "code", execution_count := some 1, metadata := [], outputs := [], source := [] }

/-- Counterexample to C8 as stated: a code cell with no source lines has no
first line, so by the claim its tag defaults to `module` and, with chunk
markers requested, it should at least contribute its marker line — but
`notebook_to_module` guards on `len(source) > 0` and emits nothing at all
for it. -/
theorem lit_C8_counterexample :
    notebook_to_module ({ meta := none, cells := [cell_C8] } : Notebook Unit) true = [] ∧
    module_projection_claim ({ meta := none, cells := [cell_C8] } : Notebook Unit) true =
      ["\n", make_chunk_marker 0 "module" 80 ++ "\n", "\n"] ∧
    (["\n", make_chunk_marker 0 "module" 80 ++ "\n", "\n"] : List String) ≠ [] := by
  refine ⟨by decide, by decide, by decide⟩

end LiterateNotebook
